import Mathlib

/-!
Verification of the `gtxr` git-automation CLI (`bin/gitauto.js`) against its
specification.  The JavaScript source is shallowly embedded: each JS helper
becomes a Lean function over explicit inputs; the external `git` subprocess is
modelled by an oracle environment supplying the result of each invocation, and
the functions return the value the JS code returns together with the trace of
subprocess command lines issued, in order.
-/

/-- Model of JavaScript `String.prototype.toLowerCase` (ASCII range, which is
all the source ever feeds it): lower-case every character. -/
def jsToLower (s : String) : String := ⟨s.data.map Char.toLower⟩

/-- Helper for `jsIncludes`: does `sub` occur as a contiguous run inside the
character list? -/
def includesChars (sub : List Char) : List Char → Bool
  | [] => sub.isEmpty
  | c :: rest => List.isPrefixOf sub (c :: rest) || includesChars sub rest

/-- Model of JavaScript `s.includes(sub)`: substring containment. -/
def jsIncludes (s sub : String) : Bool := includesChars sub.data s.data

/-- Model of JavaScript `String.prototype.trim`: drop whitespace from both
ends. -/
def jsTrim (s : String) : String :=
  ⟨((s.data.dropWhile Char.isWhitespace).reverse.dropWhile Char.isWhitespace).reverse⟩

/-- Uniform subprocess result shape produced by the `git` helper
(`bin/gitauto.js` lines 77-84): `ok` reflects exit status 0, both streams are
trimmed strings. -/
structure GitResult where
  ok : Bool
  stdout : String
  stderr : String
deriving DecidableEq

/-- Raw outcome of `child_process.spawnSync`: `status` is the exit code, or
`none` when the process did not exit normally (JS `null`); the captured
streams may likewise be absent (JS `null`/`undefined`), which the source
guards with `(r.stdout || "")`. -/
structure SpawnResult where
  status : Option Int
  stdout : Option String
  stderr : Option String
deriving DecidableEq

/-- Embedding of the `git(...args)` adapter (`bin/gitauto.js` lines 77-84):
wrap a raw `spawnSync` result as `{ ok: status === 0, stdout: trim, stderr:
trim }`.  The subprocess itself is the input. -/
def git (r : SpawnResult) : GitResult :=
  { ok := r.status == some 0
    stdout := jsTrim (r.stdout.getD "")
    stderr := jsTrim (r.stderr.getD "") }

/-! ## Push dispatcher (`bin/gitauto.js` lines 205-248) -/

/-- Substring checked (case-sensitively) against push stderr at line 218. -/
def noUpstreamKey : String := "no upstream"

/-- Second substring of the case-sensitive no-upstream check at line 218. -/
def hasNoUpstreamKey : String := "has no upstream"

/-- Keywords of the rejected-push check at lines 226-227, matched against the
lower-cased stderr. -/
def rejectedKeys : List String := ["fetch first", "non-fast-forward", "rejected"]

/-- Condition of line 218: `r.stderr.includes("no upstream") ||
r.stderr.includes("has no upstream")` — note: case-sensitive. -/
def noUpstreamSignal (stderr : String) : Bool :=
  jsIncludes stderr noUpstreamKey || jsIncludes stderr hasNoUpstreamKey

/-- Condition of lines 226-227: some rejected keyword occurs in
`r.stderr.toLowerCase()`. -/
def rejectedSignal (stderr : String) : Bool :=
  rejectedKeys.any fun k => jsIncludes (jsToLower stderr) k

/-- Oracle environment for one run of `push`: the result each potential git
invocation would produce, in the source's naming — the forced push (line 208),
the first plain push (line 214), the `--set-upstream` push (line 220), the
`pull --rebase` (line 231) and the plain push retried after a rebase
(line 242). -/
structure PushEnv where
  forceR : GitResult
  plainR : GitResult
  upstreamR : GitResult
  rebaseR : GitResult
  retryR : GitResult
deriving DecidableEq

/-- Embedding of `push(branch, forcePush)` (`bin/gitauto.js` lines 205-248).
Returns the boolean the JS function returns, paired with the trace of git
command lines issued, in order.  Each `return true` / `return false` site of
the source is mirrored by a literal. -/
def push (env : PushEnv) (branch : String) (forcePush : Bool) :
    Bool × List (List String) :=
  if forcePush then
    let r := env.forceR
    if r.ok then (true, [["push", "--force", "origin", branch]])
    else (false, [["push", "--force", "origin", branch]])
  else
    let r := env.plainR
    let t0 := [["push", "origin", branch]]
    if r.ok then (true, t0)
    else if noUpstreamSignal r.stderr then
      let r2 := env.upstreamR
      let t1 := t0 ++ [["push", "--set-upstream", "origin", branch]]
      if r2.ok then (true, t1) else (false, t1)
    else if rejectedSignal r.stderr then
      let rebase := env.rebaseR
      if !rebase.ok then (false, t0 ++ [["pull", "--rebase", "origin", branch]])
      else
        let r3 := env.retryR
        let t2 := t0 ++ [["pull", "--rebase", "origin", branch], ["push", "origin", branch]]
        if r3.ok then (true, t2) else (false, t2)
    else (false, t0)

/-! ## AI error classifier (`bin/gitauto.js` lines 186-200) -/

/-- Outcome reported by `handleAiError`; the unknown case carries the original
error message because the source prints it verbatim (line 198). -/
inductive AiFailure where
  | creditsExhausted
  | invalidKey
  | rateLimited
  | unknown (message : String)
deriving DecidableEq

/-- Keyword of the first classifier branch (line 188). -/
def creditKey : String := "credit"

/-- Keyword of the first classifier branch (line 188). -/
def quotaKey : String := "quota"

/-- Keyword of the first classifier branch (line 188). -/
def insufficientKey : String := "insufficient"

/-- Keyword of the second classifier branch (line 193). -/
def invalidKey : String := "invalid"

/-- Keyword of the second classifier branch (line 193). -/
def authKey : String := "auth"

/-- Keyword of the second classifier branch (line 193). -/
def k401Key : String := "401"

/-- Keyword of the third classifier branch (line 195). -/
def rateKey : String := "rate"

/-- Keyword of the third classifier branch (line 195). -/
def k429Key : String := "429"

/-- Condition of the first classifier branch (`bin/gitauto.js` line 188),
applied to the lower-cased message. -/
def creditSignal (msg : String) : Bool :=
  jsIncludes msg creditKey || jsIncludes msg quotaKey || jsIncludes msg insufficientKey

/-- Condition of the second classifier branch (`bin/gitauto.js` line 193),
applied to the lower-cased message. -/
def authSignal (msg : String) : Bool :=
  jsIncludes msg invalidKey || jsIncludes msg authKey || jsIncludes msg k401Key

/-- Condition of the third classifier branch (`bin/gitauto.js` line 195),
applied to the lower-cased message. -/
def rateSignal (msg : String) : Bool :=
  jsIncludes msg rateKey || jsIncludes msg k429Key

/-- Embedding of `handleAiError` (`bin/gitauto.js` lines 186-200): lower-case
the message, then test the three keyword groups in source order, first match
winning; an unmatched message is reported verbatim. -/
def handleAiError (message : String) : AiFailure :=
  let msg := jsToLower message
  if creditSignal msg then .creditsExhausted
  else if authSignal msg then .invalidKey
  else if rateSignal msg then .rateLimited
  else .unknown message

/-! ## Branch switching (`bin/gitauto.js` lines 253-263, 88)

The repository state visible to `switchBranch` is its current branch; which
checkout and branch-creation attempts succeed is supplied by the environment
as oracles.  A failed `git checkout`, like the real tool, leaves the current
branch unchanged, and a successful one moves to the named branch. -/

/-- Repository-plus-environment state for the branch-switching embedding:
`current` is the branch `git branch --show-current` would report,
`checkoutOk name` says whether `git checkout name` would succeed,
`createOk name` whether `git checkout -b name` would, and `showCurrentOk`
whether the `git branch --show-current` query itself succeeds. -/
structure Repo where
  current : String
  checkoutOk : String → Bool
  createOk : String → Bool
  showCurrentOk : Bool

/-- Model of `git checkout name`: on success the current branch becomes
`name`; on failure the state is unchanged. -/
def gitCheckout (repo : Repo) (name : String) : GitResult × Repo :=
  if repo.checkoutOk name then
    ({ ok := true, stdout := "", stderr := "" }, { repo with current := name })
  else
    ({ ok := false, stdout := "", stderr := "" }, repo)

/-- Model of `git checkout -b name`: on success the branch is created and
becomes current; on failure the state is unchanged. -/
def gitCheckoutB (repo : Repo) (name : String) : GitResult × Repo :=
  if repo.createOk name then
    ({ ok := true, stdout := "", stderr := "" }, { repo with current := name })
  else
    ({ ok := false, stdout := "", stderr := "" }, repo)

/-- Embedding of `getCurrentBranch` (`bin/gitauto.js` line 88): the trimmed
stdout of `git branch --show-current` when that query succeeds, else the
fallback `"main"`. -/
def getCurrentBranch (repo : Repo) : String :=
  let r : GitResult :=
    if repo.showCurrentOk then { ok := true, stdout := repo.current, stderr := "" }
    else { ok := false, stdout := "", stderr := "" }
  if r.ok then r.stdout else "main"

/-- Embedding of `switchBranch(name)` (`bin/gitauto.js` lines 253-263): try
`git checkout name`; on failure try `git checkout -b name`; on a second
failure report and return `getCurrentBranch()`.  Returns the branch name the
JS function returns, paired with the final repository state. -/
def switchBranch (repo : Repo) (name : String) : String × Repo :=
  let p1 := gitCheckout repo name
  if p1.1.ok then (name, p1.2)
  else
    let p2 := gitCheckoutB p1.2 name
    if p2.1.ok then (name, p2.2)
    else (getCurrentBranch p2.2, p2.2)

/-! ## Argument parser (`bin/gitauto.js` lines 536-583) -/

/-- Options record built by `parseArgs` (`bin/gitauto.js` lines 544-549). -/
structure Opts where
  version : Bool
  help : Bool
  setup : Bool
  upgrade : Bool
  uninstall : Bool
  noPush : Bool
  noAi : Bool
  forcePush : Bool
  branch : Option String
deriving DecidableEq

/-- Default options record (`bin/gitauto.js` lines 544-549): all flags false,
no branch. -/
def defaultOpts : Opts :=
  { version := false, help := false, setup := false, upgrade := false
    uninstall := false, noPush := false, noAi := false, forcePush := false
    branch := none }

/-- Fatal parse outcomes: `process.exit(1)` at line 559 with an unknown
argument, or at line 575 when `--branch`/`-b` has no following token. -/
inductive ParseErr where
  | unknownArg (a : String)
  | branchNeedsName
deriving DecidableEq

/-- Recognized-token set `VALID_ARGS` (`bin/gitauto.js` lines 536-541),
membership being tested on the lower-cased token. -/
def VALID_ARGS : List String :=
  ["-v", "--version", "-h", "--help",
   "setup", "upgrade", "uninstall",
   "--no-push", "--no-ai", "--force-push",
   "--branch", "-b"]

/-- Worker loop of `parseArgs` (`bin/gitauto.js` lines 553-581) over the
remaining tokens: lower-case the token, reject it fatally when outside
`VALID_ARGS`, otherwise set the matching flag; `--branch`/`-b` additionally
consumes the next raw token as the branch name and is fatal when none
follows.  The final branch of the conditional chain is the `--branch`/`-b`
case, the only members not matched earlier. -/
def parseLoop (o : Opts) : List String → Except ParseErr Opts
  | [] => .ok o
  | t :: rest =>
    let a := jsToLower t
    if a ∈ VALID_ARGS then
      if a = "-v" ∨ a = "--version" then parseLoop { o with version := true } rest
      else if a = "-h" ∨ a = "--help" then parseLoop { o with help := true } rest
      else if a = "setup" then parseLoop { o with setup := true } rest
      else if a = "upgrade" then parseLoop { o with upgrade := true } rest
      else if a = "uninstall" then parseLoop { o with uninstall := true } rest
      else if a = "--no-push" then parseLoop { o with noPush := true } rest
      else if a = "--no-ai" then parseLoop { o with noAi := true } rest
      else if a = "--force-push" then parseLoop { o with forcePush := true } rest
      else
        match rest with
        | [] => .error .branchNeedsName
        | name :: rest2 => parseLoop { o with branch := some name } rest2
    else .error (.unknownArg t)

/-- Embedding of `parseArgs(argv)` (`bin/gitauto.js` lines 543-583): skip the
two interpreter/script tokens, then run the loop on defaults. -/
def parseArgs (argv : List String) : Except ParseErr Opts :=
  parseLoop defaultOpts (argv.drop 2)

/-! ## Config store (`bin/gitauto.js` lines 60-72)

The config file is modelled as `Option String`: `none` when
`fs.existsSync(CONFIG_FILE)` is false, otherwise its text.  `JSON.parse` /
`JSON.stringify` are platform functions, modelled here exactly on the grammar
`saveConfig` emits — a two-key object written with `JSON.stringify(data,
null, 2)` — with every other input treated as a parse failure, which
`loadConfig` catches into the empty record. -/

/-- Literal prefix of the serialized config, up to and including the opening
quote of the provider value. -/
def configPrefix : String := "\x7b\n  \"provider\": \""

/-- Literal middle of the serialized config, from after the closing quote of
the provider value up to and including the opening quote of the key value. -/
def configMid : String := ",\n  \"apiKey\": \""

/-- Literal suffix of the serialized config, after the closing quote of the
key value. -/
def configSuffix : String := "\n\x7d"

/-- Model of `JSON.stringify({ provider, apiKey }, null, 2)` as written by
`saveConfig` (`bin/gitauto.js` line 70), for values whose characters need no
JSON escaping. -/
def jsonStringifyConfig (provider apiKey : String) : String :=
  configPrefix ++ provider ++ "\"" ++ configMid ++ apiKey ++ "\"" ++ configSuffix

/-- Scan a JSON string body up to its closing quote, returning the body and
the rest of the input; inputs with no closing quote, or with an escape
sequence (not produced by `jsonStringifyConfig` for escape-free values), are
a parse failure. -/
def takeStr : List Char → Option (List Char × List Char)
  | [] => none
  | c :: rest =>
    if c = '"' then some ([], rest)
    else if c = '\\' then none
    else
      match takeStr rest with
      | none => none
      | some (s, r) => some (c :: s, r)

/-- Drop an expected literal prefix, failing when the input does not start
with it. -/
def stripPrefixOpt (pre s : List Char) : Option (List Char) :=
  if List.isPrefixOf pre s then some (s.drop pre.length) else none

/-- Model of `JSON.parse` restricted to the config grammar: parse exactly the
text `jsonStringifyConfig` produces, yielding the provider/key pair; any
other text is a parse failure (the thrown-`SyntaxError` case). -/
def parseConfigJson (s : String) : Option (String × String) :=
  match stripPrefixOpt configPrefix.data s.data with
  | none => none
  | some s1 =>
    match takeStr s1 with
    | none => none
    | some (p, s2) =>
      match stripPrefixOpt configMid.data s2 with
      | none => none
      | some s3 =>
        match takeStr s3 with
        | none => none
        | some (k, s4) =>
          if s4 = configSuffix.data then some (⟨p⟩, ⟨k⟩) else none

/-- Embedding of `loadConfig` (`bin/gitauto.js` lines 60-66): a missing file
or a parse failure yields the empty record (`none`); a well-formed file
yields its provider/key pair. -/
def loadConfig (file : Option String) : Option (String × String) :=
  match file with
  | none => none
  | some content => parseConfigJson content

/-- Embedding of `saveConfig(data)` (`bin/gitauto.js` lines 68-72) for the
record shape `cmdSetup` saves (line 410): the new file content. -/
def saveConfig (provider apiKey : String) : Option String :=
  some (jsonStringifyConfig provider apiKey)

/-! ## Auxiliary lemmas -/

/-- Trimming cannot erase a non-whitespace character: a string containing one
trims to a non-empty string. -/
theorem jsTrim_ne_of_mem {s : String} {c : Char} (hc : c ∈ s.data)
    (hw : c.isWhitespace = false) : jsTrim s ≠ "" := by
  intro h
  have hdata :
      ((s.data.dropWhile Char.isWhitespace).reverse.dropWhile Char.isWhitespace).reverse
        = [] := congrArg String.data h
  rw [List.reverse_eq_nil_iff, List.dropWhile_eq_nil_iff] at hdata
  have hmem : c ∈ s.data.takeWhile Char.isWhitespace ++ s.data.dropWhile Char.isWhitespace := by
    rw [List.takeWhile_append_dropWhile]; exact hc
  rcases List.mem_append.mp hmem with htake | hdrop
  · rw [List.mem_takeWhile_imp htake] at hw; exact Bool.true_eq_false.mp hw
  · have := hdata c (List.mem_reverse.mpr hdrop)
    rw [this] at hw; exact Bool.true_eq_false.mp hw

/-- Stripping a literal prefix off text that starts with it leaves the rest. -/
theorem stripPrefixOpt_append (pre rest : List Char) :
    stripPrefixOpt pre (pre ++ rest) = some rest := by
  have hp : List.isPrefixOf pre (pre ++ rest) = true :=
    List.isPrefixOf_iff_prefix.mpr (List.prefix_append pre rest)
  simp [stripPrefixOpt, hp]

/-- Scanning a quote-free, escape-free body followed by a closing quote
returns exactly that body and the rest. -/
theorem takeStr_append (l rest : List Char) (h : ∀ c ∈ l, c ≠ '"' ∧ c ≠ '\\') :
    takeStr (l ++ '"' :: rest) = some (l, rest) := by
  induction l with
  | nil => simp [takeStr]
  | cons c tl ih =>
    have hc := h c (by simp)
    have htl : ∀ x ∈ tl, x ≠ '"' ∧ x ≠ '\\' := fun x hx => h x (by simp [hx])
    simp [takeStr, hc.1, hc.2, ih htl]

/-- Character data of the double-quote string literal. -/
theorem quote_data : ("\"" : String).data = ['"'] := rfl

/-- Character-level decomposition of a serialized config record. -/
theorem jsonStringifyConfig_data (p k : String) :
    (jsonStringifyConfig p k).data
      = configPrefix.data
        ++ (p.data ++ '"' :: (configMid.data ++ (k.data ++ '"' :: configSuffix.data))) := by
  simp [jsonStringifyConfig, String.data_append, quote_data]

/-! ## Claim theorems -/

/-- Sample raw subprocess outcome whose stderr is a bare newline. -/
def newlineStderr : SpawnResult :=
  { status := some 1, stdout := some "", stderr := some "\n" }

/-- Claim C7, counterexample: at exit status 1 with raw stderr a newline the
tool did write to standard error (the raw stream differs from the empty
string), yet the adapter's trimmed `stderr` is empty, so the adapter result is
not "non-empty whenever the tool wrote to standard error". -/
theorem git_stderr_whitespace_cex :
    newlineStderr.stderr = some "\n" ∧ "\n" ≠ "" ∧
    (git newlineStderr).ok = false ∧ (git newlineStderr).stderr = "" := by
  decide

/-- Claim C7, amended: the adapter is a total function returning `{ok, stdout,
stderr}` with both streams trimmed; `ok` is true exactly when the exit status
is 0, every other status gives `ok = false`, and `stderr` is non-empty
whenever the tool wrote at least one non-whitespace character to standard
error. -/
theorem git_result_amended (r : SpawnResult) :
    ((git r).ok = true ↔ r.status = some 0) ∧
    (git r).stdout = jsTrim (r.stdout.getD "") ∧
    (git r).stderr = jsTrim (r.stderr.getD "") ∧
    (r.status ≠ some 0 → (git r).ok = false) ∧
    (∀ s : String, r.stderr = some s →
      (∃ c ∈ s.data, c.isWhitespace = false) → (git r).stderr ≠ "") := by
  refine ⟨by simp [git], rfl, rfl, ?_, ?_⟩
  · intro hne
    simp [git, hne]
  · rintro s hs ⟨c, hc, hw⟩
    show jsTrim (r.stderr.getD "") ≠ ""
    rw [hs]
    exact jsTrim_ne_of_mem hc hw

/-- Sample fatal stderr text written by the tool. -/
def repoFailMsg : String := "fatal: not a git repository"

/-- Sample raw subprocess outcome: exit status 128 with a fatal message. -/
def repoFail : SpawnResult :=
  { status := some 128, stdout := some "", stderr := some repoFailMsg }

/-- Witness for the amended claim C7 at a concrete failing invocation. -/
theorem git_result_amended_w :
    (git repoFail).ok = false ∧ (git repoFail).stderr ≠ "" :=
  ⟨(git_result_amended repoFail).2.2.2.1 (by decide),
   (git_result_amended repoFail).2.2.2.2 repoFailMsg rfl (by decide)⟩

/-- Branch name used by concrete push environments. -/
def mainBranch : String := "main"

/-- Claim C1: when a failed plain push's stderr matches the no-upstream check
and also contains a rejection keyword, the dispatcher takes the set-upstream
retry path — the trace is the plain push followed by exactly one
`--set-upstream` push, with no rebase — because the no-upstream check at line
218 runs before the rejection check at lines 226-229 and the first match
wins. -/
theorem push_both_signals_upstream (env : PushEnv) (branch : String)
    (hfail : env.plainR.ok = false)
    (hno : jsIncludes env.plainR.stderr noUpstreamKey = true)
    (_hrej : rejectedSignal env.plainR.stderr = true) :
    push env branch false
      = (env.upstreamR.ok,
         [["push", "origin", branch], ["push", "--set-upstream", "origin", branch]]) := by
  have hsig : noUpstreamSignal env.plainR.stderr = true := by
    simp [noUpstreamSignal, hno]
  cases h2 : env.upstreamR.ok <;> simp [push, hfail, hsig, h2]

/-- Sample stderr containing both a no-upstream and a rejection substring. -/
def bothSignalsStderr : String := "no upstream and also rejected"

/-- Push environment whose plain push fails with both signals present. -/
def bothSignalsEnv : PushEnv :=
  { forceR := { ok := false, stdout := "", stderr := "" }
    plainR := { ok := false, stdout := "", stderr := bothSignalsStderr }
    upstreamR := { ok := true, stdout := "", stderr := "" }
    rebaseR := { ok := false, stdout := "", stderr := "" }
    retryR := { ok := false, stdout := "", stderr := "" } }

/-- Witness for claim C1 at a concrete environment. -/
theorem push_both_signals_upstream_w :
    push bothSignalsEnv mainBranch false
      = (true,
         [["push", "origin", mainBranch], ["push", "--set-upstream", "origin", mainBranch]]) :=
  push_both_signals_upstream bothSignalsEnv mainBranch (by decide) (by decide) (by decide)

/-- Git's diagnostic for a branch with no upstream, as quoted by the spec. -/
def noUpstreamStderr : String := "fatal: The current branch has no upstream branch"

/-- Claim C2: when the plain push of a non-forced invocation fails with the
no-upstream diagnostic, the dispatcher issues exactly one `--set-upstream`
push, returns that retry's own outcome, and attempts nothing further — in
particular no rebase — whether the retry succeeds or fails. -/
theorem push_no_upstream_once (env : PushEnv) (branch : String)
    (hfail : env.plainR.ok = false)
    (hs : env.plainR.stderr = noUpstreamStderr) :
    push env branch false
      = (env.upstreamR.ok,
         [["push", "origin", branch], ["push", "--set-upstream", "origin", branch]]) := by
  have hsig : noUpstreamSignal env.plainR.stderr = true := by rw [hs]; decide
  cases h2 : env.upstreamR.ok <;> simp [push, hfail, hsig, h2]

/-- Push environment where the plain push fails with the no-upstream
diagnostic and the set-upstream retry fails too. -/
def noUpstreamEnv : PushEnv :=
  { forceR := { ok := false, stdout := "", stderr := "" }
    plainR := { ok := false, stdout := "", stderr := noUpstreamStderr }
    upstreamR := { ok := false, stdout := "", stderr := "" }
    rebaseR := { ok := true, stdout := "", stderr := "" }
    retryR := { ok := true, stdout := "", stderr := "" } }

/-- Witness for claim C2: even with the retry failing (and a rebase that
would succeed), the trace stops after the single set-upstream push. -/
theorem push_no_upstream_once_w :
    push noUpstreamEnv mainBranch false
      = (false,
         [["push", "origin", mainBranch], ["push", "--set-upstream", "origin", mainBranch]]) :=
  push_no_upstream_once noUpstreamEnv mainBranch (by decide) (by decide)

/-- Git's non-fast-forward rejection line, as quoted by the spec. -/
def rejectedStderr : String := "! [rejected] main -> main (non-fast-forward)"

/-- Claim C3: when the plain push of a non-forced invocation fails with the
non-fast-forward rejection (which does not match the no-upstream check), the
dispatcher runs exactly one rebase-pull; a failing rebase ends the run with no
push retry, and a succeeding rebase is followed by exactly one plain push
retry whose own outcome is returned, terminally. -/
theorem push_rejected_rebase_once (env : PushEnv) (branch : String)
    (hfail : env.plainR.ok = false)
    (hs : env.plainR.stderr = rejectedStderr) :
    (env.rebaseR.ok = false →
      push env branch false
        = (false, [["push", "origin", branch], ["pull", "--rebase", "origin", branch]])) ∧
    (env.rebaseR.ok = true →
      push env branch false
        = (env.retryR.ok,
           [["push", "origin", branch], ["pull", "--rebase", "origin", branch],
            ["push", "origin", branch]])) := by
  have hno : noUpstreamSignal env.plainR.stderr = false := by rw [hs]; decide
  have hrej : rejectedSignal env.plainR.stderr = true := by rw [hs]; decide
  constructor
  · intro hr
    simp [push, hfail, hno, hrej, hr]
  · intro hr
    cases h3 : env.retryR.ok <;> simp [push, hfail, hno, hrej, hr, h3]

/-- Push environment where the plain push is rejected and the automatic
rebase fails. -/
def rejectedEnv : PushEnv :=
  { forceR := { ok := false, stdout := "", stderr := "" }
    plainR := { ok := false, stdout := "", stderr := rejectedStderr }
    upstreamR := { ok := true, stdout := "", stderr := "" }
    rebaseR := { ok := false, stdout := "", stderr := "" }
    retryR := { ok := true, stdout := "", stderr := "" } }

/-- Witness for claim C3: with the rebase failing, the trace ends at the
rebase-pull and no push retry occurs. -/
theorem push_rejected_rebase_once_w :
    push rejectedEnv mainBranch false
      = (false, [["push", "origin", mainBranch], ["pull", "--rebase", "origin", mainBranch]]) :=
  (push_rejected_rebase_once rejectedEnv mainBranch (by decide) (by decide)).1 (by decide)

/-- Claim C8: a forced push is attempted exactly once and its outcome is
returned terminally — the trace is the single `--force` push for every
environment, so neither success nor failure can trigger the plain push, the
set-upstream retry, or the rebase remediation. -/
theorem push_force_terminal (env : PushEnv) (branch : String) :
    push env branch true = (env.forceR.ok, [["push", "--force", "origin", branch]]) := by
  cases h : env.forceR.ok <;> simp [push, h]

/-- Upper-case variant of the no-upstream diagnostic. -/
def upperNoUpstream : String := "HAS NO UPSTREAM"

/-- Upper-case stderr carrying both an upstream and a rejection word. -/
def upperBothStderr : String := "HAS NO UPSTREAM and REJECTED"

/-- Claim C10: the no-upstream check is case-sensitive while the rejection
check lowercases first — `"HAS NO UPSTREAM"` never matches the no-upstream
check though its lower-casing does, `"REJECTED"` does match the rejection
check, and a failed push whose stderr carries both upper-case words therefore
takes the rebase path, not the set-upstream path. -/
theorem push_case_sensitivity :
    noUpstreamSignal upperNoUpstream = false ∧
    noUpstreamSignal (jsToLower upperNoUpstream) = true ∧
    noUpstreamSignal upperBothStderr = false ∧
    rejectedSignal upperBothStderr = true ∧
    (∀ (env : PushEnv) (branch : String),
      env.plainR.ok = false → env.plainR.stderr = upperBothStderr →
      env.rebaseR.ok = false →
      push env branch false
        = (false, [["push", "origin", branch], ["pull", "--rebase", "origin", branch]])) := by
  refine ⟨by decide, by decide, by decide, by decide, ?_⟩
  intro env branch hfail hs hr
  have hno : noUpstreamSignal env.plainR.stderr = false := by rw [hs]; decide
  have hrej : rejectedSignal env.plainR.stderr = true := by rw [hs]; decide
  simp [push, hfail, hno, hrej, hr]

/-- Push environment whose plain push fails with the upper-case stderr. -/
def upperBothEnv : PushEnv :=
  { forceR := { ok := false, stdout := "", stderr := "" }
    plainR := { ok := false, stdout := "", stderr := upperBothStderr }
    upstreamR := { ok := true, stdout := "", stderr := "" }
    rebaseR := { ok := false, stdout := "", stderr := "" }
    retryR := { ok := true, stdout := "", stderr := "" } }

/-- Witness for claim C10 at a concrete environment: the rebase path is
taken. -/
theorem push_case_sensitivity_w :
    push upperBothEnv mainBranch false
      = (false, [["push", "origin", mainBranch], ["pull", "--rebase", "origin", mainBranch]]) :=
  push_case_sensitivity.2.2.2.2 upperBothEnv mainBranch (by decide) (by decide) (by decide)

/-- Sample classifier input: an OpenAI quota-exhaustion code. -/
def quotaMsg : String := "insufficient_quota"

/-- Sample classifier input: an HTTP 401 message. -/
def unauthorizedMsg : String := "401 Unauthorized"

/-- Sample classifier input: an HTTP 429 message. -/
def tooManyMsg : String := "429 too many requests"

/-- Sample classifier input: a bare socket error code. -/
def connResetMsg : String := "ECONNRESET"

/-- Claim C4: `handleAiError` classifies the lower-cased message by testing
the credit group, then the auth group, then the rate group, first match
winning, and reports an unmatched message verbatim as unknown; in particular
`"insufficient_quota"` is credits-exhausted, `"401 Unauthorized"` is
invalid-key, `"429 too many requests"` is rate-limited and `"ECONNRESET"` is
unknown with the message intact. -/
theorem handleAiError_spec :
    (∀ m : String, creditSignal (jsToLower m) = true →
      handleAiError m = .creditsExhausted) ∧
    (∀ m : String, creditSignal (jsToLower m) = false →
      authSignal (jsToLower m) = true → handleAiError m = .invalidKey) ∧
    (∀ m : String, creditSignal (jsToLower m) = false →
      authSignal (jsToLower m) = false → rateSignal (jsToLower m) = true →
      handleAiError m = .rateLimited) ∧
    (∀ m : String, creditSignal (jsToLower m) = false →
      authSignal (jsToLower m) = false → rateSignal (jsToLower m) = false →
      handleAiError m = .unknown m) ∧
    handleAiError quotaMsg = .creditsExhausted ∧
    handleAiError unauthorizedMsg = .invalidKey ∧
    handleAiError tooManyMsg = .rateLimited ∧
    handleAiError connResetMsg = .unknown connResetMsg := by
  refine ⟨?_, ?_, ?_, ?_, by decide, by decide, by decide, by decide⟩
  · intro m h1
    simp [handleAiError, h1]
  · intro m h1 h2
    simp [handleAiError, h1, h2]
  · intro m h1 h2 h3
    simp [handleAiError, h1, h2, h3]
  · intro m h1 h2 h3
    simp [handleAiError, h1, h2, h3]

/-- Sample classifier input exercising case-insensitive matching. -/
def upperQuotaMsg : String := "Daily QUOTA exceeded"

/-- Witness for claim C4: an upper-case quota message still classifies as
credits exhausted. -/
theorem handleAiError_spec_w :
    handleAiError upperQuotaMsg = .creditsExhausted :=
  handleAiError_spec.1 upperQuotaMsg (by decide)

/-- Sample corrupt config file content. -/
def corruptConfig : String := "\x7b\x7bnot valid json\x7d\x7d"

/-- Claim C5: saving a configuration record and loading it back yields the
same record — for every provider/key pair whose characters need no JSON
escaping — while a missing file or a file that is not valid JSON loads as the
empty record rather than an error. -/
theorem config_round_trip :
    (∀ p k : String,
      (∀ c ∈ p.data, c ≠ '"' ∧ c ≠ '\\' ∧ 32 ≤ c.val) →
      (∀ c ∈ k.data, c ≠ '"' ∧ c ≠ '\\' ∧ 32 ≤ c.val) →
      loadConfig (saveConfig p k) = some (p, k)) ∧
    loadConfig none = none ∧
    loadConfig (some corruptConfig) = none := by
  refine ⟨?_, rfl, by decide⟩
  intro p k hp hk
  have hp2 : ∀ c ∈ p.data, c ≠ '"' ∧ c ≠ '\\' :=
    fun c hc => ⟨(hp c hc).1, (hp c hc).2.1⟩
  have hk2 : ∀ c ∈ k.data, c ≠ '"' ∧ c ≠ '\\' :=
    fun c hc => ⟨(hk c hc).1, (hk c hc).2.1⟩
  show parseConfigJson (jsonStringifyConfig p k) = some (p, k)
  simp only [parseConfigJson, jsonStringifyConfig_data, stripPrefixOpt_append,
    takeStr_append _ _ hp2, takeStr_append _ _ hk2]
  simp

/-- Provider name of the spec's round-trip example. -/
def geminiProvider : String := "gemini"

/-- Api key of the spec's round-trip example. -/
def sampleKey : String := "k"

/-- Witness for claim C5 at the spec's example record. -/
theorem config_round_trip_w :
    loadConfig (saveConfig geminiProvider sampleKey) = some (geminiProvider, sampleKey) :=
  config_round_trip.1 geminiProvider sampleKey (by decide) (by decide)

/-- Sample unrecognized command-line token. -/
def unknownToken : String := "foobar"

/-- Sample argv combining two boolean flags. -/
def comboArgv : List String := ["node", "gtxr", "--no-push", "--no-ai"]

/-- Claim C6: the parser fails fatally when `--branch` or `-b` is the last
token, fails fatally on any token outside the recognized set (tested on the
lower-cased token, as the source does), and recognized boolean flags combine
independently — `--no-push --no-ai` sets exactly `noPush` and `noAi`. -/
theorem parseArgs_fatal_and_flags :
    (∀ o : Opts, parseLoop o ["--branch"] = .error .branchNeedsName) ∧
    (∀ o : Opts, parseLoop o ["-b"] = .error .branchNeedsName) ∧
    (∀ (o : Opts) (t : String) (rest : List String),
      jsToLower t ∉ VALID_ARGS → parseLoop o (t :: rest) = .error (.unknownArg t)) ∧
    parseArgs comboArgv = .ok { defaultOpts with noPush := true, noAi := true } := by
  refine ⟨fun o => rfl, fun o => rfl, ?_, rfl⟩
  intro o t rest h
  unfold parseLoop
  simp [h]

/-- Witness for claim C6: an unrecognized token is a fatal parse error. -/
theorem parseArgs_fatal_and_flags_w :
    parseLoop defaultOpts [unknownToken] = .error (.unknownArg unknownToken) :=
  parseArgs_fatal_and_flags.2.2.1 defaultOpts unknownToken [] (by decide)

/-- Claim C9: the workflow first attempts a checkout of the requested branch
(succeeding moves to it), on checkout failure attempts to create it
(succeeding moves to it), and when creation also fails it returns the branch
that was current before the attempt, with the repository state untouched —
provided the current-branch query itself succeeds. -/
theorem switchBranch_spec (repo : Repo) (name : String) :
    (repo.checkoutOk name = true →
      switchBranch repo name = (name, { repo with current := name })) ∧
    (repo.checkoutOk name = false → repo.createOk name = true →
      switchBranch repo name = (name, { repo with current := name })) ∧
    (repo.checkoutOk name = false → repo.createOk name = false →
      repo.showCurrentOk = true →
      (switchBranch repo name).1 = repo.current ∧ (switchBranch repo name).2 = repo) := by
  refine ⟨?_, ?_, ?_⟩
  · intro h1
    simp [switchBranch, gitCheckout, h1]
  · intro h1 h2
    simp [switchBranch, gitCheckout, gitCheckoutB, h1, h2]
  · intro h1 h2 h3
    constructor <;> simp [switchBranch, gitCheckout, gitCheckoutB, getCurrentBranch, h1, h2, h3]

/-- Repository state where neither checking out nor creating any branch can
succeed. -/
def stuckRepo : Repo :=
  { current := mainBranch
    checkoutOk := fun _ => false
    createOk := fun _ => false
    showCurrentOk := true }

/-- Requested branch name of the witness scenario. -/
def featureBranch : String := "feature/login"

/-- Witness for claim C9: with both attempts failing, the workflow stays on
the previously current branch. -/
theorem switchBranch_spec_w :
    (switchBranch stuckRepo featureBranch).1 = stuckRepo.current ∧
    (switchBranch stuckRepo featureBranch).2 = stuckRepo :=
  (switchBranch_spec stuckRepo featureBranch).2.2 rfl rfl rfl
